import Mathlib

/-
Verification of the delivery-cost core (src/delivery_cost_calculator.py).

Shallow embedding conventions:
* Python floats are idealized as exact numbers: rationals where the source
  performs only field arithmetic and comparisons, and real numbers where the
  source calls transcendental functions (math.sin, math.cos, math.atan2,
  math.sqrt in haversine_distance).  The cost model and the aggregation are
  stated over a generic linear ordered field K with a floor, so that the same
  definition can be instantiated at both rationals (for decidable evaluation)
  and reals (for the pipeline, whose distances are real).
* The builtin round(x, 2) of Python rounds half to even; it is modelled by
  roundHalfEven and round2 below, acting on the idealized exact value.
* A Python dict of cost parameters is modelled as an association list keyed
  by strings (ParamsDict); dict[k] access is List.lookup, and a missing key
  (Python KeyError) is Option.none.
* Timestamps (column 提交时间) are modelled as rational numbers of seconds;
  (end - start).total_seconds() is then plain subtraction.
-/

/-- Rounding a value to the nearest integer, ties to even, as Python's
builtin round does on the idealized exact value. -/
def roundHalfEven {K : Type} [LinearOrderedField K] [FloorRing K] (x : K) : ℤ :=
  if x - (⌊x⌋ : K) < 1 / 2 then ⌊x⌋
  else if 1 / 2 < x - (⌊x⌋ : K) then ⌊x⌋ + 1
  else if Even ⌊x⌋ then ⌊x⌋ else ⌊x⌋ + 1

/-- Python round(x, 2): round 100 * x half to even, then divide by 100. -/
def round2 {K : Type} [LinearOrderedField K] [FloorRing K] (x : K) : K :=
  ((roundHalfEven (100 * x) : ℤ) : K) / 100

/-- A cost-parameter dictionary: what self.cost_params holds.  Python dicts
are modelled as association lists from string keys to numeric values. -/
abbrev ParamsDict (K : Type) : Type := List (String × K)

/-- The default parameter dict built in DeliveryCostCalculator.__init__
(lines 23-30): fuel_price 7.5, fuel_consumption 8.0, toll_rate 0.45,
driver_hourly_wage 25, vehicle_depreciation 150, insurance_daily 50. -/
def default_cost_params {K : Type} [LinearOrderedField K] : ParamsDict K :=
  [("fuel_price", 15 / 2),
   ("fuel_consumption", 8),
   ("toll_rate", 9 / 20),
   ("driver_hourly_wage", 25),
   ("vehicle_depreciation", 150),
   ("insurance_daily", 50)]

/-- DeliveryCostCalculator.__init__ (lines 16-30): self.cost_params is
cost_params or the default dict.  In Python, None and the empty dict are both
falsy, so either is silently replaced by the defaults; any other dict is
stored verbatim, with no validation of keys or values. -/
def initCostParams {K : Type} [LinearOrderedField K]
    (cost_params : Option (ParamsDict K)) : ParamsDict K :=
  match cost_params with
  | none => default_cost_params
  | some d => if d.isEmpty then default_cost_params else d

/-- DeliveryCostCalculator.load_cost_parameters (lines 278-281): the parsed
JSON content of the file replaces self.cost_params verbatim.  The argument is
the parsed file content; no key or value validation is performed. -/
def load_cost_parameters {K : Type} (parsed : ParamsDict K) : ParamsDict K :=
  parsed

/-- DeliveryCostCalculator.save_cost_parameters (lines 273-276): the current
dict is serialized as-is; modelled as the identity on the dict content. -/
def save_cost_parameters {K : Type} (cost_params : ParamsDict K) : ParamsDict K :=
  cost_params

/-- The six parameter values that calculate_delivery_cost reads out of
self.cost_params. -/
structure CostParams (K : Type) where
  fuel_price : K
  fuel_consumption : K
  toll_rate : K
  driver_hourly_wage : K
  vehicle_depreciation : K
  insurance_daily : K
deriving DecidableEq, Repr

/-- Reading the six keys out of the parameter dict, as the subscript accesses
self.cost_params[...] inside calculate_delivery_cost do (lines 174-190).
A missing key is a Python KeyError raised during the cost computation; it is
modelled as none.  Keys beyond the six are never read, hence ignored. -/
def getParams {K : Type} (cost_params : ParamsDict K) : Option (CostParams K) := do
  let fuel_price ← cost_params.lookup "fuel_price"
  let fuel_consumption ← cost_params.lookup "fuel_consumption"
  let toll_rate ← cost_params.lookup "toll_rate"
  let driver_hourly_wage ← cost_params.lookup "driver_hourly_wage"
  let vehicle_depreciation ← cost_params.lookup "vehicle_depreciation"
  let insurance_daily ← cost_params.lookup "insurance_daily"
  pure { fuel_price := fuel_price, fuel_consumption := fuel_consumption,
         toll_rate := toll_rate, driver_hourly_wage := driver_hourly_wage,
         vehicle_depreciation := vehicle_depreciation,
         insurance_daily := insurance_daily }

/-- The fields of the trajectory-analysis dict that calculate_delivery_cost
reads (lines 170-171, 185, 203-205). -/
structure TrajectoryMetrics (K : Type) where
  driver_id : String
  delivery_date : String
  branch_name : String
  total_distance_km : K
  delivery_duration_hours : K
  delivery_points_count : ℕ
deriving DecidableEq, Repr

/-- The per-driver cost record returned by calculate_delivery_cost
(lines 202-217). -/
structure CostBreakdown (K : Type) where
  driver_id : String
  delivery_date : String
  branch_name : String
  total_distance_km : K
  delivery_duration_hours : K
  delivery_points_count : ℕ
  fuel_cost : K
  toll_cost : K
  mileage_cost : K
  time_cost : K
  fixed_cost : K
  total_cost : K
  avg_cost_per_point : K
  cost_efficiency : K
deriving DecidableEq, Repr

section CostModel

variable {K : Type} [LinearOrderedField K] [FloorRing K]

/-- Line 174-177: fuel_cost before rounding. -/
def fuel_cost_raw (p : CostParams K) (m : TrajectoryMetrics K) : K :=
  m.total_distance_km * (p.fuel_price * p.fuel_consumption / 100)

/-- Line 178: toll_cost before rounding. -/
def toll_cost_raw (p : CostParams K) (m : TrajectoryMetrics K) : K :=
  m.total_distance_km * p.toll_rate

/-- Line 179: mileage_cost before rounding. -/
def mileage_cost_raw (p : CostParams K) (m : TrajectoryMetrics K) : K :=
  fuel_cost_raw p m + toll_cost_raw p m

/-- Line 182: time_cost before rounding. -/
def time_cost_raw (p : CostParams K) (m : TrajectoryMetrics K) : K :=
  m.delivery_duration_hours * p.driver_hourly_wage

/-- Lines 185-192: fixed cost per delivery point, with the max-guard, and 0
when there are no points. -/
def fixed_cost_per_delivery (p : CostParams K) (m : TrajectoryMetrics K) : K :=
  if 0 < m.delivery_points_count then
    (p.vehicle_depreciation + p.insurance_daily)
      / ((max m.delivery_points_count 1 : ℕ) : K)
  else 0

/-- Line 194: fixed_cost_total before rounding. -/
def fixed_cost_raw (p : CostParams K) (m : TrajectoryMetrics K) : K :=
  fixed_cost_per_delivery p m * (m.delivery_points_count : K)

/-- Line 197: total_cost before rounding. -/
def total_cost_raw (p : CostParams K) (m : TrajectoryMetrics K) : K :=
  mileage_cost_raw p m + time_cost_raw p m + fixed_cost_raw p m

/-- Line 200: avg_cost_per_point before rounding. -/
def avg_cost_per_point_raw (p : CostParams K) (m : TrajectoryMetrics K) : K :=
  total_cost_raw p m / ((max m.delivery_points_count 1 : ℕ) : K)

/-- Line 216: cost_efficiency before rounding; 0.1 is the floor on the
distance denominator. -/
def cost_efficiency_raw (p : CostParams K) (m : TrajectoryMetrics K) : K :=
  total_cost_raw p m / max m.total_distance_km (1 / 10)

/-- DeliveryCostCalculator.calculate_delivery_cost, core case (lines 170-217):
the returned dict, with each monetary output rounded to 2 decimals at the
point of output. -/
def calcDeliveryCost (p : CostParams K) (m : TrajectoryMetrics K) :
    CostBreakdown K :=
  { driver_id := m.driver_id
    delivery_date := m.delivery_date
    branch_name := m.branch_name
    total_distance_km := m.total_distance_km
    delivery_duration_hours := m.delivery_duration_hours
    delivery_points_count := m.delivery_points_count
    fuel_cost := round2 (fuel_cost_raw p m)
    toll_cost := round2 (toll_cost_raw p m)
    mileage_cost := round2 (mileage_cost_raw p m)
    time_cost := round2 (time_cost_raw p m)
    fixed_cost := round2 (fixed_cost_raw p m)
    total_cost := round2 (total_cost_raw p m)
    avg_cost_per_point := round2 (avg_cost_per_point_raw p m)
    cost_efficiency := round2 (cost_efficiency_raw p m) }

/-- DeliveryCostCalculator.calculate_delivery_cost including its guards: the
check on line 167 returns the empty dict on an empty trajectory dict (inner
none), and a dict missing one of the six keys raises KeyError during the
computation (outer none). -/
def calculate_delivery_cost (cost_params : ParamsDict K) :
    Option (TrajectoryMetrics K) → Option (Option (CostBreakdown K))
  | none => some none
  | some m => (getParams cost_params).map (fun p => some (calcDeliveryCost p m))

end CostModel

/-- One row of the branch summary produced by process_daily_data
(lines 252-267), after the column renaming: 司机数量 driver_count, 总里程
total_distance_km, 平均里程 mean_distance_km, 配送点总数 total_points, 总成本
total_cost, 平均成本 mean_cost, 平均单点成本 mean_avg_cost_per_point, 成本效率
mean_cost_efficiency. -/
structure BranchSummary (K : Type) where
  branch_name : String
  driver_count : ℕ
  total_distance_km : K
  mean_distance_km : K
  total_points : ℕ
  total_cost : K
  mean_cost : K
  mean_avg_cost_per_point : K
  mean_cost_efficiency : K
deriving DecidableEq, Repr

section Aggregator

variable {K : Type} [LinearOrderedField K] [FloorRing K]

/-- The groupby('branch_name').agg(...) step of process_daily_data
(lines 252-267).  For each branch value occurring in the records, the group
is the sublist of records carrying that branch_name; the aggregate counts
records (the pandas count of the driver_id column counts non-null entries,
not distinct drivers), sums, and takes means as sum divided by group size,
everything rounded to 2 decimals by the .round(2) call.  pandas emits the
branch keys sorted; the key order is irrelevant to every property stated
below, and List.dedup is used to enumerate the distinct keys. -/
def branch_summary (records : List (CostBreakdown K)) : List (BranchSummary K) :=
  ((records.map (fun r => r.branch_name)).dedup).map (fun b =>
    let g := records.filter (fun r => r.branch_name = b)
    let n : ℕ := g.length
    { branch_name := b
      driver_count := n
      total_distance_km := round2 ((g.map (fun r => r.total_distance_km)).sum)
      mean_distance_km := round2 ((g.map (fun r => r.total_distance_km)).sum / (n : K))
      total_points := (g.map (fun r => r.delivery_points_count)).sum
      total_cost := round2 ((g.map (fun r => r.total_cost)).sum)
      mean_cost := round2 ((g.map (fun r => r.total_cost)).sum / (n : K))
      mean_avg_cost_per_point := round2 ((g.map (fun r => r.avg_cost_per_point)).sum / (n : K))
      mean_cost_efficiency := round2 ((g.map (fun r => r.cost_efficiency)).sum / (n : K)) })

end Aggregator

section RoundingFacts

variable {K : Type} [LinearOrderedField K] [FloorRing K]

/-- Rounding to the nearest integer moves a value by at most one half. -/
theorem abs_roundHalfEven_sub_le (x : K) :
    |((roundHalfEven x : ℤ) : K) - x| ≤ 1 / 2 := by
  have h1 : ((⌊x⌋ : ℤ) : K) ≤ x := Int.floor_le x
  have h2 : x < ((⌊x⌋ : ℤ) : K) + 1 := Int.lt_floor_add_one x
  unfold roundHalfEven
  split_ifs with hf hg he
  · rw [abs_le]; constructor <;> linarith
  · rw [abs_le]; push_cast; constructor <;> linarith
  · rw [abs_le]; constructor <;> linarith
  · rw [abs_le]; push_cast; constructor <;> linarith

/-- Rounding to 2 decimal places moves a value by at most 0.005. -/
theorem abs_round2_sub_le (x : K) : |round2 x - x| ≤ 1 / 200 := by
  have h := abs_roundHalfEven_sub_le (100 * x)
  unfold round2
  rw [show ((roundHalfEven (100 * x) : ℤ) : K) / 100 - x
        = (((roundHalfEven (100 * x) : ℤ) : K) - 100 * x) / 100 by ring,
    abs_div, abs_of_pos (show (0 : K) < 100 by norm_num)]
  linarith

/-- A value rounded to 2 decimal places is rational; an irrational value is
therefore changed by the rounding. -/
theorem round2_ne_of_irrational {x : ℝ} (h : Irrational x) : round2 x ≠ x := by
  intro he
  refine h ⟨((roundHalfEven (100 * x) : ℤ) : ℚ) / 100, ?_⟩
  calc (((((roundHalfEven (100 * x) : ℤ) : ℚ)) / 100 : ℚ) : ℝ)
      = round2 x := by unfold round2; push_cast; ring
    _ = x := he

end RoundingFacts

/-- Parameter set for the C2 counterexample: fuel_price 0, fuel_consumption 0,
toll_rate 0, driver_hourly_wage 1.003, vehicle_depreciation 1.003,
insurance_daily 0. -/
def paramsC2 : CostParams ℚ :=
  { fuel_price := 0, fuel_consumption := 0, toll_rate := 0,
    driver_hourly_wage := 1003 / 1000, vehicle_depreciation := 1003 / 1000,
    insurance_daily := 0 }

/-- Trajectory metrics for the C2 counterexample: zero distance, one hour,
one delivery point. -/
def metricsC2 : TrajectoryMetrics ℚ :=
  { driver_id := "d", delivery_date := "2025-08-20", branch_name := "B",
    total_distance_km := 0, delivery_duration_hours := 1,
    delivery_points_count := 1 }

/-- C2, counterexample.  The claim reads the decomposition identities with the
rounded stored fields on both sides.  With the parameter set above the stored
fields are time_cost = fixed_cost = 1.00 (each rounded down from 1.003) and
total_cost = 2.01 (rounded up from the unrounded sum 2.006), so
total_cost is not round(mileage_cost + time_cost + fixed_cost, 2) = 2.00:
each output field is rounded from the unrounded intermediates, not from the
other stored fields. -/
theorem claim_C2_counterexample :
    ¬ ((calcDeliveryCost paramsC2 metricsC2).total_cost
          = round2 ((calcDeliveryCost paramsC2 metricsC2).mileage_cost
              + (calcDeliveryCost paramsC2 metricsC2).time_cost
              + (calcDeliveryCost paramsC2 metricsC2).fixed_cost)
        ∧ (calcDeliveryCost paramsC2 metricsC2).mileage_cost
          = round2 ((calcDeliveryCost paramsC2 metricsC2).fuel_cost
              + (calcDeliveryCost paramsC2 metricsC2).toll_cost)) := by
  intro hcl
  have h := hcl.1
  norm_num [calcDeliveryCost, paramsC2, metricsC2, total_cost_raw,
    mileage_cost_raw, fuel_cost_raw, toll_cost_raw, time_cost_raw,
    fixed_cost_raw, fixed_cost_per_delivery, avg_cost_per_point_raw,
    cost_efficiency_raw, round2, roundHalfEven] at h

/-- C2 (amended): every stored field of a CostBreakdown is the 2-decimal
rounding of the corresponding unrounded intermediate, applied once at the
point of output: total_cost = round(raw mileage + raw time + raw fixed, 2)
and mileage_cost = round(raw fuel + raw toll, 2), where the raw values are
the unrounded intermediates; consequently each stored field differs from its
unrounded value by at most 0.005, but re-rounding sums of already-rounded
stored fields can differ from the stored total by a cent. -/
theorem claim_C2_amended {K : Type} [LinearOrderedField K] [FloorRing K]
    (p : CostParams K) (m : TrajectoryMetrics K) :
    (calcDeliveryCost p m).total_cost
        = round2 (mileage_cost_raw p m + time_cost_raw p m + fixed_cost_raw p m)
      ∧ (calcDeliveryCost p m).mileage_cost
        = round2 (fuel_cost_raw p m + toll_cost_raw p m)
      ∧ |(calcDeliveryCost p m).total_cost
          - (mileage_cost_raw p m + time_cost_raw p m + fixed_cost_raw p m)| ≤ 1 / 200
      ∧ |(calcDeliveryCost p m).mileage_cost
          - (fuel_cost_raw p m + toll_cost_raw p m)| ≤ 1 / 200 := by
  refine ⟨rfl, rfl, ?_, ?_⟩
  · exact abs_round2_sub_le (total_cost_raw p m)
  · exact abs_round2_sub_le (mileage_cost_raw p m)

/-- Parameter set for the C7 counterexample: only the hourly wage is nonzero. -/
def paramsC7 : CostParams ℚ :=
  { fuel_price := 0, fuel_consumption := 0, toll_rate := 0,
    driver_hourly_wage := 5, vehicle_depreciation := 0, insurance_daily := 0 }

/-- Trajectory metrics for the C7 counterexample: zero distance, two hours,
three delivery points, so the unrounded total cost is 10. -/
def metricsC7 : TrajectoryMetrics ℚ :=
  { driver_id := "d", delivery_date := "2025-08-20", branch_name := "B",
    total_distance_km := 0, delivery_duration_hours := 2,
    delivery_points_count := 3 }

/-- C7, counterexample.  The claim equates the stored avg_cost_per_point with
total_cost / max(point_count, 1) over the stored fields.  With total cost 10
and 3 points the stored average is round(10/3, 2) = 3.33, while the stored
total divided by the point count is 10/3; the two differ because the stored
field is rounded.  (The safety part of the claim is true and is proved in
claim_C7_amended.) -/
theorem claim_C7_counterexample :
    ¬ ((calcDeliveryCost paramsC7 metricsC7).avg_cost_per_point
          = (calcDeliveryCost paramsC7 metricsC7).total_cost
            / ((max (calcDeliveryCost paramsC7 metricsC7).delivery_points_count 1 : ℕ) : ℚ)
        ∧ (calcDeliveryCost paramsC7 metricsC7).cost_efficiency
          = (calcDeliveryCost paramsC7 metricsC7).total_cost
            / max (calcDeliveryCost paramsC7 metricsC7).total_distance_km (1 / 10)) := by
  intro hcl
  have h := hcl.1
  norm_num [calcDeliveryCost, paramsC7, metricsC7, total_cost_raw,
    mileage_cost_raw, fuel_cost_raw, toll_cost_raw, time_cost_raw,
    fixed_cost_raw, fixed_cost_per_delivery, avg_cost_per_point_raw,
    cost_efficiency_raw, round2, roundHalfEven] at h

/-- C7 (amended): the cost model is total on degenerate inputs.  For every
trajectory metrics record with nonnegative distance, both denominators are
floored away from zero (max(point_count, 1) is at least 1 and
max(total_distance_km, 0.1) is at least 0.1), no division by zero occurs, and
the stored avg_cost_per_point and cost_efficiency are the 2-decimal roundings
of total_cost_raw / max(point_count, 1) and
total_cost_raw / max(total_distance_km, 0.1), where total_cost_raw is the
unrounded total cost; the stored fields are rounded at output, so they equal
the quotients only up to that rounding. -/
theorem claim_C7_amended {K : Type} [LinearOrderedField K] [FloorRing K]
    (p : CostParams K) (m : TrajectoryMetrics K)
    (hd : 0 ≤ m.total_distance_km) :
    (0 : K) < ((max m.delivery_points_count 1 : ℕ) : K)
      ∧ (0 : K) < max m.total_distance_km (1 / 10)
      ∧ (calcDeliveryCost p m).avg_cost_per_point
        = round2 (total_cost_raw p m / ((max m.delivery_points_count 1 : ℕ) : K))
      ∧ (calcDeliveryCost p m).cost_efficiency
        = round2 (total_cost_raw p m / max m.total_distance_km (1 / 10)) := by
  refine ⟨?_, ?_, rfl, rfl⟩
  · have h1 : (1 : ℕ) ≤ max m.delivery_points_count 1 := le_max_right _ _
    exact_mod_cast Nat.lt_of_lt_of_le Nat.zero_lt_one h1
  · exact lt_max_of_lt_right (by norm_num)

/-- C7, witness: the amended theorem applied to the counterexample inputs,
whose distance is 0. -/
theorem claim_C7_witness :
    (0 : ℚ) ≤ metricsC7.total_distance_km
      ∧ ((0 : ℚ) < ((max metricsC7.delivery_points_count 1 : ℕ) : ℚ)
          ∧ (0 : ℚ) < max metricsC7.total_distance_km (1 / 10)
          ∧ (calcDeliveryCost paramsC7 metricsC7).avg_cost_per_point
            = round2 (total_cost_raw paramsC7 metricsC7
                / ((max metricsC7.delivery_points_count 1 : ℕ) : ℚ))
          ∧ (calcDeliveryCost paramsC7 metricsC7).cost_efficiency
            = round2 (total_cost_raw paramsC7 metricsC7
                / max metricsC7.total_distance_km (1 / 10))) :=
  ⟨le_refl 0, claim_C7_amended paramsC7 metricsC7 (le_refl 0)⟩

/-- Default parameters as a struct, used by the C9 counterexample. -/
def paramsDefault : CostParams ℚ :=
  { fuel_price := 15 / 2, fuel_consumption := 8, toll_rate := 9 / 20,
    driver_hourly_wage := 25, vehicle_depreciation := 150,
    insurance_daily := 50 }

/-- Trajectory metrics for the C9 counterexample, distance 1 km. -/
def metricsC9a : TrajectoryMetrics ℚ :=
  { driver_id := "d", delivery_date := "2025-08-20", branch_name := "B",
    total_distance_km := 1, delivery_duration_hours := 1 / 2,
    delivery_points_count := 1 }

/-- Trajectory metrics for the C9 counterexample, distance 1.001 km,
otherwise identical to metricsC9a. -/
def metricsC9b : TrajectoryMetrics ℚ :=
  { driver_id := "d", delivery_date := "2025-08-20", branch_name := "B",
    total_distance_km := 1001 / 1000, delivery_duration_hours := 1 / 2,
    delivery_points_count := 1 }

/-- C9, counterexample.  With the default (all positive) parameters and two
metric records that differ only in distance (1 vs 1.001 km), the mileage
costs 1.05 and 1.05105 and the totals 213.55 and 213.55105 both round to the
same stored values, so the stored mileage_cost and total_cost do not strictly
increase: strict monotonicity holds for the unrounded intermediates only. -/
theorem claim_C9_counterexample :
    ((0 : ℚ) < paramsDefault.fuel_price
        ∧ (0 : ℚ) < paramsDefault.fuel_consumption
        ∧ (0 : ℚ) < paramsDefault.toll_rate
        ∧ (0 : ℚ) < paramsDefault.driver_hourly_wage
        ∧ (0 : ℚ) < paramsDefault.vehicle_depreciation
        ∧ (0 : ℚ) < paramsDefault.insurance_daily)
      ∧ metricsC9a.delivery_duration_hours = metricsC9b.delivery_duration_hours
      ∧ metricsC9a.delivery_points_count = metricsC9b.delivery_points_count
      ∧ metricsC9a.total_distance_km < metricsC9b.total_distance_km
      ∧ (calcDeliveryCost paramsDefault metricsC9b).mileage_cost
        = (calcDeliveryCost paramsDefault metricsC9a).mileage_cost
      ∧ (calcDeliveryCost paramsDefault metricsC9b).total_cost
        = (calcDeliveryCost paramsDefault metricsC9a).total_cost := by
  refine ⟨⟨by norm_num [paramsDefault], by norm_num [paramsDefault],
    by norm_num [paramsDefault], by norm_num [paramsDefault],
    by norm_num [paramsDefault], by norm_num [paramsDefault]⟩,
    rfl, rfl, by norm_num [metricsC9a, metricsC9b], ?_, ?_⟩
  · norm_num [calcDeliveryCost, paramsDefault, metricsC9a, metricsC9b,
      total_cost_raw, mileage_cost_raw, fuel_cost_raw, toll_cost_raw,
      time_cost_raw, fixed_cost_raw, fixed_cost_per_delivery, round2,
      roundHalfEven]
  · norm_num [calcDeliveryCost, paramsDefault, metricsC9a, metricsC9b,
      total_cost_raw, mileage_cost_raw, fuel_cost_raw, toll_cost_raw,
      time_cost_raw, fixed_cost_raw, fixed_cost_per_delivery, round2,
      roundHalfEven]

/-- C9 (amended): with all six cost parameters positive, for two metric
records that agree on duration and point count, strictly greater distance
yields strictly greater unrounded mileage cost and strictly greater unrounded
total cost.  The stored fields of the CostBreakdown are the 2-decimal
roundings of these and can coincide when the increase is below one cent. -/
theorem claim_C9_amended {K : Type} [LinearOrderedField K] [FloorRing K]
    (p : CostParams K) (m1 m2 : TrajectoryMetrics K)
    (hfp : 0 < p.fuel_price) (hfc : 0 < p.fuel_consumption)
    (htr : 0 < p.toll_rate) (hw : 0 < p.driver_hourly_wage)
    (hvd : 0 < p.vehicle_depreciation) (hins : 0 < p.insurance_daily)
    (hdur : m1.delivery_duration_hours = m2.delivery_duration_hours)
    (hcnt : m1.delivery_points_count = m2.delivery_points_count)
    (hlt : m1.total_distance_km < m2.total_distance_km) :
    mileage_cost_raw p m1 < mileage_cost_raw p m2
      ∧ total_cost_raw p m1 < total_cost_raw p m2 := by
  have hcoef : 0 < p.fuel_price * p.fuel_consumption / 100 + p.toll_rate := by
    positivity
  have hm : mileage_cost_raw p m1 < mileage_cost_raw p m2 := by
    have h := mul_lt_mul_of_pos_right hlt hcoef
    unfold mileage_cost_raw fuel_cost_raw toll_cost_raw
    nlinarith [h]
  refine ⟨hm, ?_⟩
  have ht : time_cost_raw p m1 = time_cost_raw p m2 := by
    unfold time_cost_raw; rw [hdur]
  have hf : fixed_cost_raw p m1 = fixed_cost_raw p m2 := by
    unfold fixed_cost_raw fixed_cost_per_delivery; rw [hcnt]
  unfold total_cost_raw
  rw [ht, hf]
  exact add_lt_add_right (add_lt_add_right hm _) _

/-- C9, witness: the amended theorem at unit parameters and distances 1 < 2. -/
theorem claim_C9_witness :
    ((0 : ℚ) < 1 ∧ (0 : ℚ) < 1 ∧ (0 : ℚ) < 1 ∧ (0 : ℚ) < 1 ∧ (0 : ℚ) < 1
        ∧ (0 : ℚ) < 1 ∧ (1 : ℚ) < 2)
      ∧ (mileage_cost_raw
            (CostParams.mk (K := ℚ) 1 1 1 1 1 1)
            (TrajectoryMetrics.mk "d" "t" "B" 1 0 0)
          < mileage_cost_raw (CostParams.mk (K := ℚ) 1 1 1 1 1 1)
              (TrajectoryMetrics.mk "d" "t" "B" 2 0 0)
        ∧ total_cost_raw (CostParams.mk (K := ℚ) 1 1 1 1 1 1)
            (TrajectoryMetrics.mk "d" "t" "B" 1 0 0)
          < total_cost_raw (CostParams.mk (K := ℚ) 1 1 1 1 1 1)
              (TrajectoryMetrics.mk "d" "t" "B" 2 0 0)) :=
  ⟨⟨by decide, by decide, by decide, by decide, by decide, by decide, by decide⟩,
    claim_C9_amended (CostParams.mk 1 1 1 1 1 1)
      (TrajectoryMetrics.mk "d" "t" "B" 1 0 0)
      (TrajectoryMetrics.mk "d" "t" "B" 2 0 0)
      (by decide) (by decide) (by decide) (by decide) (by decide) (by decide)
      rfl rfl (by decide)⟩

/-- C1, counterexample.  The claim says an invalid parameter set (missing
keys, unrecognized key, negative value) is surfaced as a configuration error
before any computation and is never silently defaulted.  In the code neither
the constructor nor the loader validates anything: a dict containing only a
negative fuel_price is stored verbatim by both (no error channel exists in
either function), the missing keys surface only later, when the cost
computation first reads them (getParams = none models that KeyError), an
unrecognized extra key alongside the six required ones is silently ignored by
every read, and the empty dict is silently replaced by the defaults by the
falsy-dict test in the constructor. -/
theorem claim_C1_counterexample :
    initCostParams (some [("fuel_price", (-1 : ℚ))]) = [("fuel_price", (-1 : ℚ))]
      ∧ load_cost_parameters [("fuel_price", (-1 : ℚ))] = [("fuel_price", (-1 : ℚ))]
      ∧ getParams [("fuel_price", (-1 : ℚ))] = none
      ∧ initCostParams (some ([] : ParamsDict ℚ)) = default_cost_params
      ∧ getParams (default_cost_params ++ [("mystery_key", (0 : ℚ))])
        = some (CostParams.mk (15 / 2) 8 (9 / 20) 25 150 50) :=
  ⟨rfl, rfl, rfl, rfl, rfl⟩

/-- C1 (amended): no validation is performed on cost parameters.  The
constructor stores any non-empty dict verbatim, whatever its keys and values
(None and the empty dict are silently replaced by the built-in defaults), and
the loader stores the parsed file content verbatim; a missing required key is
surfaced only later, as a lookup failure when the cost computation reads it,
and unrecognized keys or negative values are never surfaced at all. -/
theorem claim_C1_amended {K : Type} [LinearOrderedField K]
    (d : ParamsDict K) (h : d ≠ []) :
    initCostParams (some d) = d
      ∧ load_cost_parameters d = d
      ∧ initCostParams (some ([] : ParamsDict K)) = default_cost_params
      ∧ initCostParams (none : Option (ParamsDict K)) = default_cost_params := by
  refine ⟨?_, rfl, rfl, rfl⟩
  match d, h with
  | (kv :: rest), _ => rfl

/-- C1, witness: the amended theorem at the dict holding a single negative
fuel_price entry. -/
theorem claim_C1_witness :
    ([("fuel_price", (-1 : ℚ))] : ParamsDict ℚ) ≠ []
      ∧ (initCostParams (some [("fuel_price", (-1 : ℚ))]) = [("fuel_price", (-1 : ℚ))]
          ∧ load_cost_parameters [("fuel_price", (-1 : ℚ))] = [("fuel_price", (-1 : ℚ))]
          ∧ initCostParams (some ([] : ParamsDict ℚ)) = default_cost_params
          ∧ initCostParams (none : Option (ParamsDict ℚ)) = default_cost_params) :=
  ⟨by decide, claim_C1_amended [("fuel_price", (-1 : ℚ))] (by decide)⟩

/-- A concrete cost record used by the C6 counterexample and witness: branch
B, driver d, total cost 1. -/
def recordW : CostBreakdown ℚ :=
  { driver_id := "d", delivery_date := "t", branch_name := "B",
    total_distance_km := 0, delivery_duration_hours := 0,
    delivery_points_count := 1, fuel_cost := 0, toll_cost := 0,
    mileage_cost := 0, time_cost := 0, fixed_cost := 0, total_cost := 1,
    avg_cost_per_point := 1, cost_efficiency := 1 }

/-- C6, counterexample.  The claim says driver_count equals the number of
DISTINCT drivers with the branch.  The aggregation counts records (the pandas
count aggregate of the driver_id column), so feeding the same driver's record
twice yields driver_count 2 while the number of distinct drivers in the
branch is 1. -/
theorem claim_C6_counterexample :
    (branch_summary [recordW, recordW]).map (fun s => s.driver_count) = [2]
      ∧ ((([recordW, recordW].filter (fun r => r.branch_name = "B")).map
            (fun r => r.driver_id)).dedup).length = 1
      ∧ (2 : ℕ) ≠ 1 :=
  ⟨rfl, rfl, by decide⟩

/-- C6 (amended): for every collection of CostBreakdown records and every
branch name b occurring in it, the summary row for b has driver_count equal
to the number of RECORDS with branch_name = b (which equals the number of
distinct drivers whenever each driver contributes one record, as in a
pipeline run), and total_cost equal to the 2-decimal rounding of the sum of
total_cost over exactly the records with branch_name = b (the rounding is the
identity whenever every record's total is a whole number of cents); both
depend only on branch_name membership, not on the input order: any
permutation of the input yields the same driver_count and total_cost for b. -/
theorem claim_C6_amended {K : Type} [LinearOrderedField K] [FloorRing K]
    (records : List (CostBreakdown K)) (b : String)
    (hb : b ∈ records.map (fun r => r.branch_name)) :
    ∃ s ∈ branch_summary records,
      s.branch_name = b
        ∧ s.driver_count = (records.filter (fun r => r.branch_name = b)).length
        ∧ s.total_cost
          = round2 (((records.filter (fun r => r.branch_name = b)).map
              (fun r => r.total_cost)).sum)
        ∧ ∀ (records2 : List (CostBreakdown K)), records.Perm records2 →
            ∀ s2 ∈ branch_summary records2, s2.branch_name = b →
              s2.driver_count = s.driver_count ∧ s2.total_cost = s.total_cost := by
  have hbd : b ∈ (records.map (fun r => r.branch_name)).dedup :=
    List.mem_dedup.mpr hb
  refine ⟨_, List.mem_map_of_mem _ hbd, rfl, rfl, rfl, ?_⟩
  intro records2 hperm s2 hs2 hbn2
  obtain ⟨b2, _, rfl⟩ := List.mem_map.mp hs2
  have hb2 : b2 = b := hbn2
  subst hb2
  have hfil : (records.filter (fun r => r.branch_name = b2)).Perm
      (records2.filter (fun r => r.branch_name = b2)) := hperm.filter _
  constructor
  · exact (hfil.length_eq).symm
  · have hsum : ((records2.filter (fun r => r.branch_name = b2)).map
        (fun r => r.total_cost)).sum
        = ((records.filter (fun r => r.branch_name = b2)).map
            (fun r => r.total_cost)).sum :=
      ((hfil.map (fun r => r.total_cost)).sum_eq).symm
    simp only [hsum]

/-- C6, witness: the amended theorem on the one-record collection for branch
B. -/
theorem claim_C6_witness :
    ("B" ∈ [recordW].map (fun r => r.branch_name))
      ∧ (∃ s ∈ branch_summary [recordW],
          s.branch_name = "B"
            ∧ s.driver_count = ([recordW].filter (fun r => r.branch_name = "B")).length
            ∧ s.total_cost
              = round2 ((([recordW].filter (fun r => r.branch_name = "B")).map
                  (fun r => r.total_cost)).sum)
            ∧ ∀ (records2 : List (CostBreakdown ℚ)), [recordW].Perm records2 →
                ∀ s2 ∈ branch_summary records2, s2.branch_name = "B" →
                  s2.driver_count = s.driver_count ∧ s2.total_cost = s.total_cost) :=
  ⟨by decide, claim_C6_amended [recordW] "B" (by decide)⟩

/-- math.radians: degrees to radians. -/
noncomputable def radians (x : ℝ) : ℝ := x * Real.pi / 180

/-- math.atan2(y, x): the two-argument arctangent, matching the C library
convention (signed zeros are idealized away: atan2 0 0 = 0). -/
noncomputable def atan2 (y x : ℝ) : ℝ :=
  if 0 < x then Real.arctan (y / x)
  else if x = 0 then
    (if 0 < y then Real.pi / 2 else if y < 0 then -(Real.pi / 2) else 0)
  else if 0 ≤ y then Real.arctan (y / x) + Real.pi
  else Real.arctan (y / x) - Real.pi

/-- DeliveryCostCalculator.haversine_distance (lines 32-61): great-circle
distance in kilometers between two coordinates in signed decimal degrees,
with Earth radius R = 6371.0 km.  A pure function of its four arguments. -/
noncomputable def haversine_distance (lat1 lon1 lat2 lon2 : ℝ) : ℝ :=
  let R : ℝ := 6371
  let lat1_rad := radians lat1
  let lon1_rad := radians lon1
  let lat2_rad := radians lat2
  let lon2_rad := radians lon2
  let dlat := lat2_rad - lat1_rad
  let dlon := lon2_rad - lon1_rad
  let a := Real.sin (dlat / 2) ^ 2
    + Real.cos lat1_rad * Real.cos lat2_rad * Real.sin (dlon / 2) ^ 2
  let c := 2 * atan2 (Real.sqrt a) (Real.sqrt (1 - a))
  R * c

/-- C8: the great-circle distance is symmetric in its two coordinate pairs,
and zero when the two coordinates are identical (exactly zero in the
idealized real-number model, hence within any floating-point epsilon); the
Lean definition is a pure function, deterministic by construction, with
Earth radius 6371.0 km. -/
theorem claim_C8_distance_symm_and_identity :
    (∀ lat1 lon1 lat2 lon2 : ℝ,
        haversine_distance lat1 lon1 lat2 lon2
          = haversine_distance lat2 lon2 lat1 lon1)
      ∧ (∀ lat lon : ℝ, haversine_distance lat lon lat lon = 0) := by
  constructor
  · intro lat1 lon1 lat2 lon2
    unfold haversine_distance
    have hlat : radians lat1 - radians lat2 = -(radians lat2 - radians lat1) := by
      ring
    have hlon : radians lon1 - radians lon2 = -(radians lon2 - radians lon1) := by
      ring
    simp only [hlat, hlon, neg_div, Real.sin_neg, neg_sq]
    ring_nf
  · intro lat lon
    unfold haversine_distance atan2
    simp only [sub_self, zero_div, Real.sin_zero, ne_eq, OfNat.ofNat_ne_zero,
      not_false_eq_true, zero_pow, mul_zero, add_zero, Real.sqrt_zero,
      sub_zero, Real.sqrt_one]
    rw [if_pos (by norm_num : (0 : ℝ) < 1)]
    simp [Real.arctan_zero]

/-- One GPS check-in row of the input table, after the pipeline's dropna
filtering (rows with missing driver id or coordinates are dropped before
trajectory analysis).  Column mapping: driver_id 微信open_id, submit_time
提交时间 (modelled as rational seconds), submit_date 提交日期, lat 纬度, lon
经度, address 送货地址, store_name 收货方名称, branch_name 匹配分公司名,
depot_lat 匹配纬度, depot_lon 匹配经度. -/
structure CheckInEvent where
  driver_id : String
  submit_time : ℚ
  submit_date : String
  lat : ℚ
  lon : ℚ
  address : String
  store_name : String
  branch_name : String
  depot_lat : ℚ
  depot_lon : ℚ
deriving DecidableEq, Repr

/-- One entry of the delivery_points list built on lines 89-97. -/
structure DeliveryPoint where
  lat : ℚ
  lon : ℚ
  time : ℚ
  address : String
  store_name : String
deriving DecidableEq, Repr, Inhabited

/-- One entry of the path_details list built on lines 99-135: the segment
distance and its endpoint coordinates. -/
structure Seg where
  dist : ℝ
  from_coords : ℚ × ℚ
  to_coords : ℚ × ℚ

/-- The sort key of sort_values('提交时间') on line 86: comparison of
submission timestamps. -/
def submitLE (a b : CheckInEvent) : Prop := a.submit_time ≤ b.submit_time

instance : DecidableRel submitLE :=
  fun a b => inferInstanceAs (Decidable (a.submit_time ≤ b.submit_time))

instance : IsTotal CheckInEvent submitLE :=
  ⟨fun a b => le_total a.submit_time b.submit_time⟩

instance : IsTrans CheckInEvent submitLE :=
  ⟨fun _ _ _ h1 h2 => le_trans h1 h2⟩

/-- Lines 91-97: the dict appended to delivery_points for one sorted row. -/
def toDeliveryPoint (row : CheckInEvent) : DeliveryPoint :=
  { lat := row.lat, lon := row.lon, time := row.submit_time,
    address := row.address, store_name := row.store_name }

/-- Lines 99-135: starting from the previous coordinates (initially the
depot), walk the delivery points, accumulating the running total distance
and the path_details list; covers both the depot-to-first-point segment
(lines 104-117) and the point-to-point loop (lines 120-135). -/
noncomputable def path_loop : ℚ × ℚ → List DeliveryPoint → ℝ × List Seg
  | _, [] => (0, [])
  | c, p :: ps =>
    let d := haversine_distance (c.1 : ℝ) (c.2 : ℝ) (p.lat : ℝ) (p.lon : ℝ)
    let r := path_loop (p.lat, p.lon) ps
    (d + r.1, { dist := d, from_coords := c, to_coords := (p.lat, p.lon) } :: r.2)

/-- The trajectory-analysis dict returned on lines 145-155. -/
structure DriverTrajectory where
  driver_id : String
  delivery_date : String
  branch_name : String
  depot_coords : ℚ × ℚ
  delivery_points_count : ℕ
  total_distance_km : ℝ
  delivery_duration_hours : ℚ
  path_details : List Seg
  delivery_points : List DeliveryPoint

/-- The metric fields of the trajectory dict as consumed by
calculate_delivery_cost; the rounded duration is a rational number carried
into the real-valued cost computation. -/
def DriverTrajectory.metrics (t : DriverTrajectory) : TrajectoryMetrics ℝ :=
  { driver_id := t.driver_id, delivery_date := t.delivery_date,
    branch_name := t.branch_name, total_distance_km := t.total_distance_km,
    delivery_duration_hours := (t.delivery_duration_hours : ℝ),
    delivery_points_count := t.delivery_points_count }

/-- DeliveryCostCalculator.analyze_driver_trajectory (lines 63-155): empty
input produces no output (line 73-74); otherwise driver, date, branch and
depot are taken from the first row of the unsorted input (lines 77-83), the
rows are sorted by submission time (line 86, modelled as an insertion sort by
the timestamp; the pandas default quicksort guarantees the ordering but not
tie stability), the delivery points and path segments are built, the duration
is the first-to-last time span in hours when at least two points exist and
0.5 hours otherwise (lines 137-143), and the total distance and duration are
rounded to 2 decimals in the returned dict (lines 151-152). -/
noncomputable def analyze_driver_trajectory (driver_data : List CheckInEvent) :
    Option DriverTrajectory :=
  match driver_data with
  | [] => none
  | e0 :: _ =>
    let sorted_data := List.insertionSort submitLE driver_data
    let delivery_points := sorted_data.map toDeliveryPoint
    let pd := path_loop (e0.depot_lat, e0.depot_lon) delivery_points
    let delivery_duration_hours : ℚ :=
      if 2 ≤ delivery_points.length then
        (delivery_points.getLastI.time - delivery_points.headI.time) / 3600
      else 1 / 2
    some { driver_id := e0.driver_id
           delivery_date := e0.submit_date
           branch_name := e0.branch_name
           depot_coords := (e0.depot_lat, e0.depot_lon)
           delivery_points_count := delivery_points.length
           total_distance_km := round2 pd.1
           delivery_duration_hours := round2 delivery_duration_hours
           path_details := pd.2
           delivery_points := delivery_points }

/-- The accumulated total of path_loop is the sum of its segment distances. -/
theorem path_loop_fst (c : ℚ × ℚ) (ps : List DeliveryPoint) :
    (path_loop c ps).1 = ((path_loop c ps).2.map Seg.dist).sum := by
  induction ps generalizing c with
  | nil => simp [path_loop]
  | cons p ps ih => simp [path_loop, ih (p.lat, p.lon)]

/-- The segments of path_loop connect the previous coordinates and the
delivery points consecutively. -/
theorem path_loop_coords (c : ℚ × ℚ) (ps : List DeliveryPoint) :
    (path_loop c ps).2.map (fun s => (s.from_coords, s.to_coords))
      = List.zip (c :: ps.map (fun p => (p.lat, p.lon)))
          (ps.map (fun p => (p.lat, p.lon))) := by
  induction ps generalizing c with
  | nil => simp [path_loop]
  | cons p ps ih => simp [path_loop, ih (p.lat, p.lon)]

/-- Every segment of path_loop carries the haversine distance of its own
endpoints. -/
theorem path_loop_dist (c : ℚ × ℚ) (ps : List DeliveryPoint) :
    ∀ s ∈ (path_loop c ps).2,
      s.dist = haversine_distance (s.from_coords.1 : ℝ) (s.from_coords.2 : ℝ)
        (s.to_coords.1 : ℝ) (s.to_coords.2 : ℝ) := by
  induction ps generalizing c with
  | nil => simp [path_loop]
  | cons p ps ih =>
    intro s hs
    simp only [path_loop, List.mem_cons] at hs
    rcases hs with hs | hs
    · subst hs; rfl
    · exact ih (p.lat, p.lon) s hs

/-- C4 (amended): for every non-empty event list the trajectory satisfies:
the delivery points are sorted ascending by timestamp; the stored
total_distance_km is the 2-decimal ROUNDING of the sum of the segment
distances (the code rounds the sum before storing it, so exact equality with
the sum fails whenever the sum is not a whole number of 10-meter units);
segment 0 runs from the depot to the first point and segment i for i >= 1
from point i-1 to point i (stated as: the segment endpoint pairs are exactly
the consecutive pairs of the depot-prefixed point list); and every segment
carries the haversine distance of its own endpoints. -/
theorem claim_C4_amended (evs : List CheckInEvent) (h : evs ≠ []) :
    (analyze_driver_trajectory evs).elim False (fun t =>
      t.delivery_points.Pairwise (fun a b => a.time ≤ b.time)
        ∧ t.total_distance_km = round2 ((t.path_details.map Seg.dist).sum)
        ∧ t.path_details.map (fun s => (s.from_coords, s.to_coords))
          = List.zip
              (t.depot_coords :: t.delivery_points.map (fun p => (p.lat, p.lon)))
              (t.delivery_points.map (fun p => (p.lat, p.lon)))
        ∧ ∀ s ∈ t.path_details,
            s.dist = haversine_distance (s.from_coords.1 : ℝ) (s.from_coords.2 : ℝ)
              (s.to_coords.1 : ℝ) (s.to_coords.2 : ℝ)) := by
  match evs, h with
  | e0 :: rest, _ =>
    simp only [analyze_driver_trajectory, Option.elim]
    refine ⟨?_, ?_, ?_, ?_⟩
    · rw [List.pairwise_map]
      exact (List.sorted_insertionSort submitLE (e0 :: rest)).imp (fun hab => hab)
    · exact congrArg round2 (path_loop_fst _ _)
    · exact path_loop_coords _ _
    · exact path_loop_dist _ _

/-- Event for the C4 and C5 witnesses and the C4 counterexample: depot at
(0, 0), delivery point at latitude 1, longitude 0. -/
def eventC4 : CheckInEvent :=
  { driver_id := "d", submit_time := 0, submit_date := "2025-08-20",
    lat := 1, lon := 0, address := "a", store_name := "s",
    branch_name := "B", depot_lat := 0, depot_lon := 0 }

/-- C4, witness: the amended theorem on the single-event list. -/
theorem claim_C4_witness :
    ([eventC4] ≠ [])
      ∧ (analyze_driver_trajectory [eventC4]).elim False (fun t =>
          t.delivery_points.Pairwise (fun a b => a.time ≤ b.time)
            ∧ t.total_distance_km = round2 ((t.path_details.map Seg.dist).sum)
            ∧ t.path_details.map (fun s => (s.from_coords, s.to_coords))
              = List.zip
                  (t.depot_coords :: t.delivery_points.map (fun p => (p.lat, p.lon)))
                  (t.delivery_points.map (fun p => (p.lat, p.lon)))
            ∧ ∀ s ∈ t.path_details,
                s.dist = haversine_distance (s.from_coords.1 : ℝ) (s.from_coords.2 : ℝ)
                  (s.to_coords.1 : ℝ) (s.to_coords.2 : ℝ)) :=
  ⟨by simp, claim_C4_amended [eventC4] (by simp)⟩

/-- Great-circle distance from (0,0) one degree north along the meridian:
exactly 6371 * pi / 180 km (about 111.19 km). -/
theorem haversine_meridian_one_degree :
    haversine_distance 0 0 1 0 = 6371 * (Real.pi / 180) := by
  have hpi := Real.pi_pos
  have hsin : 0 ≤ Real.sin (Real.pi / 360) :=
    Real.sin_nonneg_of_nonneg_of_le_pi (by positivity) (by linarith)
  have hcos : 0 < Real.cos (Real.pi / 360) :=
    Real.cos_pos_of_mem_Ioo ⟨by linarith, by linarith⟩
  have ha : Real.sin ((radians 1 - radians 0) / 2) ^ 2
      + Real.cos (radians 0) * Real.cos (radians 1)
        * Real.sin ((radians 0 - radians 0) / 2) ^ 2
      = Real.sin (Real.pi / 360) ^ 2 := by
    rw [show (radians 1 - radians 0) / 2 = Real.pi / 360 by unfold radians; ring,
      show (radians 0 - radians 0) / 2 = 0 by ring]
    simp
  unfold haversine_distance
  dsimp only
  rw [ha, Real.sqrt_sq hsin]
  rw [show 1 - Real.sin (Real.pi / 360) ^ 2 = Real.cos (Real.pi / 360) ^ 2 by
    rw [← Real.sin_sq_add_cos_sq (Real.pi / 360)]; ring]
  rw [Real.sqrt_sq hcos.le]
  unfold atan2
  rw [if_pos hcos, ← Real.tan_eq_sin_div_cos,
    Real.arctan_tan (by linarith) (by linarith)]
  ring

/-- C4, counterexample.  The claim says total_distance_km EQUALS the sum of
the segment distances.  On the single check-in eventC4 the sum of the segment
distances is the depot-to-point distance 6371 * pi / 180, an irrational
number, while the stored total_distance_km is its 2-decimal rounding, a
rational number, so the two differ: the stored field is the rounded sum, not
the sum. -/
theorem claim_C4_counterexample :
    (analyze_driver_trajectory [eventC4]).elim False (fun t =>
      t.total_distance_km ≠ (t.path_details.map Seg.dist).sum) := by
  have hirr : Irrational (haversine_distance 0 0 1 0) := by
    rw [haversine_meridian_one_degree]
    have h : Irrational (((6371 / 180 : ℚ) : ℝ) * Real.pi) :=
      irrational_pi.rat_mul (by norm_num)
    have he : ((6371 : ℝ)) * (Real.pi / 180) = ((6371 / 180 : ℚ) : ℝ) * Real.pi := by
      push_cast
      ring
    rw [he]
    exact h
  simp only [analyze_driver_trajectory, List.insertionSort, List.orderedInsert,
    List.map, path_loop, toDeliveryPoint, eventC4, Option.elim, List.map_cons,
    List.map_nil, List.sum_cons, List.sum_nil]
  rw [add_zero]
  push_cast
  exact round2_ne_of_irrational hirr

/-- C5 (amended): for every non-empty event list, the stored
delivery_duration_hours is the 2-DECIMAL ROUNDING of
(last_timestamp - first_timestamp) / 3600 when at least two delivery points
exist (the code rounds the fractional duration before storing it, so exact
fractional precision is lost below a hundredth of an hour), and exactly
0.5 when fewer than two points exist (0.5 is unchanged by the rounding). -/
theorem claim_C5_amended (evs : List CheckInEvent) (h : evs ≠ []) :
    (analyze_driver_trajectory evs).elim False (fun t =>
      (2 ≤ t.delivery_points_count →
          t.delivery_duration_hours
            = round2 ((t.delivery_points.getLastI.time
                - t.delivery_points.headI.time) / 3600))
        ∧ (t.delivery_points_count < 2 → t.delivery_duration_hours = 1 / 2)) := by
  match evs, h with
  | e0 :: rest, _ =>
    simp only [analyze_driver_trajectory, Option.elim]
    constructor
    · intro h2
      rw [if_pos h2]
    · intro h2
      rw [if_neg (by omega)]
      norm_num [round2, roundHalfEven]

/-- First event of the C5 counterexample: a check-in at the depot at time 0
seconds. -/
def eventC5a : CheckInEvent :=
  { driver_id := "d", submit_time := 0, submit_date := "2025-08-20",
    lat := 0, lon := 0, address := "a", store_name := "s",
    branch_name := "B", depot_lat := 0, depot_lon := 0 }

/-- Second event of the C5 counterexample: the same location 10 seconds
later. -/
def eventC5b : CheckInEvent :=
  { driver_id := "d", submit_time := 10, submit_date := "2025-08-20",
    lat := 0, lon := 0, address := "a", store_name := "s",
    branch_name := "B", depot_lat := 0, depot_lon := 0 }

/-- C5, counterexample.  The claim says a trajectory with at least 2 points
has duration_hours equal to (last - first) / 3600 with fractional precision.
Two check-ins 10 seconds apart span 10/3600 = 1/360 hours, but the stored
delivery_duration_hours is round(1/360, 2) = 0, not 1/360: the code rounds
the duration to 2 decimals before storing it. -/
theorem claim_C5_counterexample :
    (analyze_driver_trajectory [eventC5a, eventC5b]).elim False (fun t =>
      t.delivery_points_count = 2
        ∧ t.delivery_duration_hours = 0
        ∧ ((10 : ℚ) - 0) / 3600 ≠ 0) := by
  norm_num [analyze_driver_trajectory, List.insertionSort, List.orderedInsert,
    submitLE, toDeliveryPoint, eventC5a, eventC5b, path_loop, Option.elim,
    List.getLastI, List.headI, round2, roundHalfEven]

/-- C5, witness: the amended theorem on the two-event list of the
counterexample. -/
theorem claim_C5_witness :
    ([eventC5a, eventC5b] ≠ [])
      ∧ (analyze_driver_trajectory [eventC5a, eventC5b]).elim False (fun t =>
          (2 ≤ t.delivery_points_count →
              t.delivery_duration_hours
                = round2 ((t.delivery_points.getLastI.time
                    - t.delivery_points.headI.time) / 3600))
            ∧ (t.delivery_points_count < 2 → t.delivery_duration_hours = 1 / 2)) :=
  ⟨by simp, claim_C5_amended [eventC5a, eventC5b] (by simp)⟩

/-- A successful trajectory analysis records one delivery point per input
event. -/
theorem analyze_count (evs : List CheckInEvent) (t : DriverTrajectory)
    (h : analyze_driver_trajectory evs = some t) :
    t.delivery_points_count = evs.length := by
  match evs with
  | [] => simp [analyze_driver_trajectory] at h
  | e0 :: rest =>
    simp only [analyze_driver_trajectory] at h
    injection h with h
    subst h
    show (List.map toDeliveryPoint
      (List.insertionSort submitLE (e0 :: rest))).length = (e0 :: rest).length
    rw [List.length_map, List.length_insertionSort]

/-- With at least one delivery point, the two-step fixed-cost computation
collapses to the full daily depreciation plus insurance. -/
theorem fixed_cost_raw_of_pos {K : Type} [LinearOrderedField K]
    (p : CostParams K) (m : TrajectoryMetrics K)
    (h : 1 ≤ m.delivery_points_count) :
    fixed_cost_raw p m = p.vehicle_depreciation + p.insurance_daily := by
  unfold fixed_cost_raw fixed_cost_per_delivery
  rw [if_pos (by omega : 0 < m.delivery_points_count),
    Nat.max_eq_left h]
  have hc : ((m.delivery_points_count : ℕ) : K) ≠ 0 :=
    Nat.cast_ne_zero.mpr (by omega)
  field_simp

/-- The per-driver loop of process_daily_data (lines 237-246): for each
driver key, analyze the driver's rows; an empty analysis dict is skipped
(if trajectory:), otherwise the cost dict is computed and collected (the
cost dict of a non-empty trajectory is never empty, so the if cost_analysis:
test always passes).  Reading a missing parameter key raises KeyError and
aborts the whole run; that abort is the outer none. -/
noncomputable def driver_loop (cost_params : ParamsDict ℝ)
    (df : List CheckInEvent) : List String → Option (List (CostBreakdown ℝ))
  | [] => some []
  | d :: ds =>
    match analyze_driver_trajectory (df.filter (fun e => e.driver_id = d)) with
    | none => driver_loop cost_params df ds
    | some t =>
      match getParams cost_params with
      | none => none
      | some p =>
        (driver_loop cost_params df ds).map
          (fun rest => calcDeliveryCost p t.metrics :: rest)

/-- DeliveryCostCalculator.process_daily_data (lines 219-271).  The argument
df is the table after reading and preprocessing: the date column is derived
from the timestamps and rows with missing driver id or coordinates are
dropped (lines 230-234) before the rows reach this core, so events carry
total fields.  Drivers are grouped by driver_id (pandas iterates groups in
sorted key order; the properties stated below do not depend on the key
order, and the distinct keys are enumerated with dedup), the per-driver loop
collects the cost records, and the branch summary is derived from them
(lines 248-269). -/
noncomputable def process_daily_data (cost_params : ParamsDict ℝ)
    (df : List CheckInEvent) :
    Option (List (CostBreakdown ℝ) × List (BranchSummary ℝ)) :=
  (driver_loop cost_params df ((df.map (fun e => e.driver_id)).dedup)).map
    (fun driver_results => (driver_results, branch_summary driver_results))

/-- Every record collected by the per-driver loop has at least one delivery
point, and its fixed cost is the rounded full daily fixed cost. -/
theorem driver_loop_mem (cost_params : ParamsDict ℝ) (df : List CheckInEvent)
    (p : CostParams ℝ) (hp : getParams cost_params = some p) :
    ∀ (ds : List String) (res : List (CostBreakdown ℝ)),
      driver_loop cost_params df ds = some res →
      ∀ b ∈ res,
        1 ≤ b.delivery_points_count
          ∧ b.fixed_cost = round2 (p.vehicle_depreciation + p.insurance_daily) := by
  intro ds
  induction ds with
  | nil =>
    intro res h b hb
    simp only [driver_loop] at h
    injection h with h
    subst h
    simp at hb
  | cons d ds ih =>
    intro res h b hb
    simp only [driver_loop] at h
    cases han : analyze_driver_trajectory (df.filter (fun e => e.driver_id = d)) with
    | none =>
      rw [han] at h
      exact ih res h b hb
    | some t =>
      rw [han, hp] at h
      cases hdl : driver_loop cost_params df ds with
      | none => rw [hdl] at h; simp at h
      | some rest =>
        rw [hdl] at h
        simp only [Option.map_some] at h
        injection h with h
        subst h
        rcases List.mem_cons.mp hb with hb | hb
        · subst hb
          have hne : df.filter (fun e => e.driver_id = d) ≠ [] := by
            intro hnil
            rw [hnil] at han
            simp [analyze_driver_trajectory] at han
          have hlen : 1 ≤ (df.filter (fun e => e.driver_id = d)).length :=
            Nat.one_le_iff_ne_zero.mpr
              (fun hz => hne (List.eq_nil_of_length_eq_zero hz))
          have hcnt : 1 ≤ t.delivery_points_count := by
            rw [analyze_count _ t han]
            exact hlen
          have hcnt2 : 1 ≤ (DriverTrajectory.metrics t).delivery_points_count := hcnt
          constructor
          · exact hcnt2
          · show round2 (fixed_cost_raw p t.metrics)
              = round2 (p.vehicle_depreciation + p.insurance_daily)
            rw [fixed_cost_raw_of_pos p t.metrics hcnt2]
        · exact ih rest hdl b hb

/-- C10: in a full pipeline run with a parameter dict containing the six
required keys, every cost record that reaches the per-driver output table
has at least one delivery point (trajectory analysis yields nothing for an
empty group and empty analyses are skipped before cost computation, and
pandas groups are non-empty by construction), so the zero-point branch of
the fixed-cost computation is unreachable there and every emitted record has
fixed_cost = round(vehicle_depreciation + insurance_daily, 2). -/
theorem claim_C10_pipeline (cost_params : ParamsDict ℝ) (df : List CheckInEvent)
    (p : CostParams ℝ) (hp : getParams cost_params = some p) :
    (process_daily_data cost_params df).elim True (fun out =>
      ∀ b ∈ out.1,
        1 ≤ b.delivery_points_count
          ∧ b.fixed_cost = round2 (p.vehicle_depreciation + p.insurance_daily)) := by
  unfold process_daily_data
  cases hdl : driver_loop cost_params df ((df.map (fun e => e.driver_id)).dedup) with
  | none => exact trivial
  | some res =>
    simp only [Option.map_some, Option.elim]
    intro b hb
    exact driver_loop_mem cost_params df p hp _ res hdl b hb

/-- Default parameters as a real-valued struct, for the C10 witness. -/
noncomputable def paramsDefaultR : CostParams ℝ :=
  { fuel_price := 15 / 2, fuel_consumption := 8, toll_rate := 9 / 20,
    driver_hourly_wage := 25, vehicle_depreciation := 150,
    insurance_daily := 50 }

/-- C10, witness: the pipeline theorem on the default parameter dict and the
single-event batch. -/
theorem claim_C10_witness :
    getParams (default_cost_params : ParamsDict ℝ) = some paramsDefaultR
      ∧ (process_daily_data (default_cost_params : ParamsDict ℝ) [eventC4]).elim
          True (fun out =>
            ∀ b ∈ out.1,
              1 ≤ b.delivery_points_count
                ∧ b.fixed_cost
                  = round2 (paramsDefaultR.vehicle_depreciation
                      + paramsDefaultR.insurance_daily)) :=
  ⟨rfl, claim_C10_pipeline (default_cost_params : ParamsDict ℝ) [eventC4]
    paramsDefaultR rfl⟩
